import Mathlib

/-!
Shallow embedding of `src/dump_rtprio.cpp`.

The program scans every process identifier, probes seven kernel interfaces
per identifier (CPU affinity, scheduling parameter, scheduling policy,
executable link, niceness, `/proc/<pid>/stat`, `/proc/<pid>/status`), and
emits one CSV row per live identifier.  Kernel interactions are modelled by
an environment (`ProcEnv`, `World`) that records the outcome each syscall /
file access would produce; the program logic itself (error classification,
the shared `not_there` flag, text parsing, cross-validation `CHECK_EQ`
calls, row assembly and the scan loop) is translated statement-by-statement
from the source.

A computation's result is an `Outcome`: `fatal` models `std::exit(1)` from
`LOG(FATAL, ...)` as well as an uncaught `std::runtime_error` from
`CHECK_EQ`/`PCHECK` or an uncaught exception from `std::stoi`; `ub` models
an out-of-bounds `front()`/`back()` access or a read of indeterminate data.
-/

/-- Result of running a piece of the program: normal value, fatal
termination (diagnostic on stderr, nonzero exit), or undefined behavior. -/
inductive Outcome (α : Type) where
  | fatal (msg : String)
  | ub
  | ok (val : α)
deriving DecidableEq, Repr

/-- Sequencing of program steps: a fatal exit or UB aborts the rest. -/
def Outcome.bind {α β : Type} : Outcome α → (α → Outcome β) → Outcome β
  | .fatal m, _ => .fatal m
  | .ub, _ => .ub
  | .ok a, f => f a

@[simp] theorem Outcome.bind_ok {α β : Type} (a : α) (f : α → Outcome β) :
    Outcome.bind (.ok a) f = f a := rfl

@[simp] theorem Outcome.bind_fatal {α β : Type} (m : String) (f : α → Outcome β) :
    Outcome.bind (.fatal m) f = (.fatal m : Outcome β) := rfl

@[simp] theorem Outcome.bind_ub {α β : Type} (f : α → Outcome β) :
    Outcome.bind (.ub : Outcome α) f = (.ub : Outcome β) := rfl

/-- The errno values the program distinguishes; `EACCES` and `EIO` stand in
for the "any other error" class. -/
inductive Errno where
  | ESRCH
  | ENOENT
  | EACCES
  | EIO
deriving DecidableEq, Repr

/-- Outcome of one kernel query: a successful value, or failure (-1 return)
with the given errno. -/
inductive SysRes (α : Type) where
  | ok (v : α)
  | err (e : Errno)
deriving DecidableEq, Repr

/-- `cpu_set_t` is a bitmask of CPU indices; modelled as a finite set. -/
abbrev CpuSet := Finset Nat

/-- `policy_string` from the source: maps a scheduling-policy number to its
label.  The numeric cases are the Linux constants `SCHED_OTHER = 0`,
`SCHED_FIFO = 1`, `SCHED_RR = 2`, `SCHED_BATCH = 3`, `SCHED_IDLE = 5`,
`SCHED_DEADLINE = 6`; anything else falls to `"???"`. -/
def policy_string (policy : Int) : String :=
  if policy = 0 then "OTHER"
  else if policy = 3 then "BATCH"
  else if policy = 5 then "IDLE"
  else if policy = 1 then "FIFO"
  else if policy = 2 then "RR"
  else if policy = 6 then "DEADLINE"
  else "???"

/-- Whitespace characters tested by `strip` in the source:
space, tab, newline. -/
def isWs (c : Char) : Bool := c = ' ' || c = '\t' || c = '\n'

/-- The left-strip loop of `strip`: `while (str.front() == ' ' || ...)`.
Calling `front()` on an empty view is out of bounds, modelled as `none`. -/
def lstrip : List Char → Option (List Char)
  | [] => none
  | c :: cs => if isWs c then lstrip cs else some (c :: cs)

/-- `strip` from the source: left strip, then right strip (the right-strip
loop pops `back()`; it is run here as a left strip of the reversed text).
`none` models the out-of-bounds `front()`/`back()` access reached on empty
or all-whitespace input. -/
def strip (s : String) : Option String :=
  match lstrip s.data with
  | none => none
  | some l =>
    match lstrip l.reverse with
    | none => none
    | some r => some ⟨r.reverse⟩

/-- Value of the longest digit prefix, accumulated like `std::stoi`
(left to right, base 10); stops at the first non-digit. -/
def digitsVal : List Char → Nat → Nat
  | [], acc => acc
  | c :: cs, acc => if c.isDigit then digitsVal cs (acc * 10 + (c.toNat - 48)) else acc

/-- Whether the text begins with a digit (so `std::stoi` finds a number). -/
def hasLeadingDigit : List Char → Bool
  | [] => false
  | c :: _ => c.isDigit

/-- `std::stoi`: skip whitespace, optional sign, then digits; trailing text
is ignored; `none` when no digits are found (`std::invalid_argument`,
uncaught, hence fatal at the call sites).  Overflow is not modelled. -/
def stoi (s : String) : Option Int :=
  let t := s.data.dropWhile isWs
  match t with
  | '-' :: rest =>
    if hasLeadingDigit rest then some (-(digitsVal rest 0 : Int)) else none
  | '+' :: rest =>
    if hasLeadingDigit rest then some ((digitsVal rest 0 : Int)) else none
  | rest =>
    if hasLeadingDigit rest then some ((digitsVal rest 0 : Int)) else none

/-- `std::string_view::starts_with`, on the character list. -/
def startsWithS (s p : String) : Bool := p.data.isPrefixOf s.data

/-- `find_pid_max`: reads `/proc/sys/kernel/pid_max`.  The environment
supplies `none` when the file cannot be opened or does not scan as one
integer (both fatal via `PLOG(FATAL)` / `CHECK_EQ`). -/
def find_pid_max (src : Option Int) : Outcome Int :=
  match src with
  | none => .fatal "fopen(/proc/sys/kernel/pid_max)"
  | some v => .ok v

/-- `find_all_cpus`: `sysconf(_SC_NPROCESSORS_CONF)` returning -1 is fatal;
otherwise the mask `{0 .. nproc-1}` is built with `CPU_SET`. -/
def find_all_cpus (nproc : Int) : Outcome CpuSet :=
  if nproc = -1 then .fatal "sysconf(_SC_NPROCESSORS_CONF)"
  else .ok (Finset.range nproc.toNat)

/-- `find_cpu_mask`: `sched_getaffinity`.  ESRCH sets the shared flag and
returns the value-initialized (empty) mask; any other failure is fatal. -/
def find_cpu_mask (res : SysRes CpuSet) (not_there : Bool) : Outcome (CpuSet × Bool) :=
  match res with
  | .err .ESRCH => .ok (∅, true)
  | .err _ => .fatal "sched_getaffinity"
  | .ok m => .ok (m, not_there)

/-- `find_sched_param`: `sched_getparam`; the value is `sched_priority`.
ESRCH → flag set, zero-initialized `sched_param`; other failure fatal. -/
def find_sched_param (res : SysRes Int) (not_there : Bool) : Outcome (Int × Bool) :=
  match res with
  | .err .ESRCH => .ok (0, true)
  | .err _ => .fatal "sched_getparam"
  | .ok p => .ok (p, not_there)

/-- `find_scheduler`: `sched_getscheduler`.  ESRCH → flag set, 0; any other
-1 return fatal. -/
def find_scheduler (res : SysRes Int) (not_there : Bool) : Outcome (Int × Bool) :=
  match res with
  | .err .ESRCH => .ok (0, true)
  | .err _ => .fatal "sched_getscheduler"
  | .ok p => .ok (p, not_there)

/-- `find_exe`: `readlink("/proc/<pid>/exe")`.  ENOENT → the literal
sentinel `"ENOENT"` with the flag untouched; ESRCH → flag set, empty
string; any other failure fatal; success returns the link target. -/
def find_exe (res : SysRes String) (not_there : Bool) : Outcome (String × Bool) :=
  match res with
  | .err .ENOENT => .ok ("ENOENT", not_there)
  | .err .ESRCH => .ok ("", true)
  | .err _ => .fatal "readlink"
  | .ok s => .ok (s, not_there)

/-- `find_nice_value`: `errno = 0; getpriority(PRIO_PROCESS, pid)`.
`errnoAfter` is the errno observed right after the call (the program
cleared it right before, so `none` means the call left it clear).  ESRCH →
flag set, 0; any other errno fatal; errno clear → the returned value is
accepted as is, negative values included. -/
def find_nice_value (errnoAfter : Option Errno) (value : Int) (not_there : Bool) :
    Outcome (Int × Bool) :=
  match errnoAfter with
  | some .ESRCH => .ok (0, true)
  | some _ => .fatal "getpriority(PRIO_PROCESS)"
  | none => .ok (value, not_there)

/-- Possible states of the `/proc/<pid>/stat` file as the program sees it:
`missing` = `fopen` failed with ENOENT; `openErr` = `fopen` failed
otherwise; `readErrESRCH` / `readErrOther` = `fgets` reported a read error
with that errno; `eofEmpty` = `fgets` hit end of file at once, leaving the
buffer indeterminate (undefined data is then parsed); `line s` = the first
line read, as `fgets` returns it (newline included). -/
inductive StatFile where
  | missing
  | openErr
  | readErrESRCH
  | readErrOther
  | eofEmpty
  | line (s : String)
deriving DecidableEq, Repr

/-- The field-splitting loop of `read_stat`, one step per character of the
buffer: `parens` is incremented on `'('`; while the post-increment depth is
positive a `')'` decrements it and nothing splits; at depth zero a `' '`
ends the current field, whose text (`acc`, the characters since the last
split) feeds `std::stoi` when the field index is 0 (pid), 3 (ppid) or
4 (sid).  Returns the final pid/ppid/sid and the number of fields split. -/
def statGo : List Char → Nat → List Char → Nat → Int → Int → Int →
    Outcome (Int × Int × Int × Nat)
  | [], _, _, field, pid, ppid, sid => .ok (pid, ppid, sid, field)
  | c :: cs, parens, acc, field, pid, ppid, sid =>
    let parens1 := if c = '(' then parens + 1 else parens
    if parens1 > 0 then
      statGo cs (if c = ')' then parens1 - 1 else parens1) (acc ++ [c]) field pid ppid sid
    else if c = ' ' then
      match field with
      | 0 =>
        match stoi ⟨acc⟩ with
        | none => .fatal "stoi"
        | some v => statGo cs 0 [] 1 v ppid sid
      | 3 =>
        match stoi ⟨acc⟩ with
        | none => .fatal "stoi"
        | some v => statGo cs 0 [] 4 pid v sid
      | 4 =>
        match stoi ⟨acc⟩ with
        | none => .fatal "stoi"
        | some v => statGo cs 0 [] 5 pid ppid v
      | f => statGo cs 0 [] (f + 1) pid ppid sid
    else
      statGo cs 0 (acc ++ [c]) field pid ppid sid

/-- The parsing pass of `read_stat` over the buffer, started with
`pid = 0`, the caller's `ppid = 0` and `sid = 0`, `field = 0`, depth 0. -/
def statParse (s : String) : Outcome (Int × Int × Int × Nat) :=
  statGo s.data 0 [] 0 0 0 0

/-- `read_stat`: opens `/proc/<pid>/stat`, reads one line, splits it, then
checks `field < 4` (fatal) and `CHECK_EQ(pid, process)` (fatal on
mismatch).  ENOENT on open, or ESRCH on read, set the vanished flag and
return with the caller's `ppid`/`sid` still 0.  Returns (ppid, sid, flag). -/
def read_stat (process : Int) (f : StatFile) (not_there : Bool) :
    Outcome (Int × Int × Bool) :=
  match f with
  | .missing => .ok (0, 0, true)
  | .openErr => .fatal "fopen(/proc/<pid>/stat)"
  | .readErrESRCH => .ok (0, 0, true)
  | .readErrOther => .fatal "fgets(stat)"
  | .eofEmpty => .ub
  | .line s =>
    match statParse s with
    | .fatal m => .fatal m
    | .ub => .ub
    | .ok (pid, ppid, sid, field) =>
      if field < 4 then .fatal "couldn't get fields from /proc/<pid>/stat"
      else if pid = process then .ok (ppid, sid, not_there)
      else .fatal "CHECK_EQ() failed"

/-- Possible states of the `/proc/<pid>/status` file: `missing` = ENOENT on
open; `openErr` = other open failure; `readErr` = `fgets` error while
reading (always fatal here, no ESRCH case in the source); `lines ls` = the
lines read until end of file, each as `fgets` returns it. -/
inductive StatusFile where
  | missing
  | openErr
  | readErr
  | lines (ls : List String)
deriving DecidableEq, Repr

/-- The line loop of `read_status`: for each line, the first matching
prefix among `Name:`, `Pid:`, `PPid:`, `Tgid:` is handled by dropping
`sizeof(prefix)` characters (the C `sizeof` counts the NUL, so one extra
character — the tab in real records — is dropped too), stripping
whitespace, and for the numeric labels running `std::stoi`.  Later
occurrences overwrite earlier ones.  Returns (pid, status_ppid, pgrp,
name), starting from the defaults 0, 0, 0, `""`. -/
def statusFold : List String → Int → Int → Int → String →
    Outcome (Int × Int × Int × String)
  | [], pid, status_ppid, pgrp, name => .ok (pid, status_ppid, pgrp, name)
  | l :: ls, pid, status_ppid, pgrp, name =>
    if startsWithS l "Name:" then
      match strip (⟨l.data.drop 6⟩ : String) with
      | none => .ub
      | some nm => statusFold ls pid status_ppid pgrp nm
    else if startsWithS l "Pid:" then
      match strip (⟨l.data.drop 5⟩ : String) with
      | none => .ub
      | some v =>
        match stoi v with
        | none => .fatal "stoi"
        | some n => statusFold ls n status_ppid pgrp name
    else if startsWithS l "PPid:" then
      match strip (⟨l.data.drop 6⟩ : String) with
      | none => .ub
      | some v =>
        match stoi v with
        | none => .fatal "stoi"
        | some n => statusFold ls pid n pgrp name
    else if startsWithS l "Tgid:" then
      match strip (⟨l.data.drop 6⟩ : String) with
      | none => .ub
      | some v =>
        match stoi v with
        | none => .fatal "stoi"
        | some n => statusFold ls pid status_ppid n name
      else statusFold ls pid status_ppid pgrp name

/-- `read_status`: opens `/proc/<pid>/status`, folds over its lines, then
checks `CHECK_EQ(pid, process)` and `CHECK_EQ(status_ppid, ppid)` — the
cross-validation against the identifier being scanned and against the
parent id from `read_stat`.  ENOENT on open sets the vanished flag and
returns with the caller's `pgrp = 0`, `name = ""` untouched.
Returns (pgrp, name, flag). -/
def read_status (process ppid : Int) (f : StatusFile) (not_there : Bool) :
    Outcome (Int × String × Bool) :=
  match f with
  | .missing => .ok (0, "", true)
  | .openErr => .fatal "fopen(/proc/<pid>/status)"
  | .readErr => .fatal "fgets(status)"
  | .lines ls =>
    match statusFold ls 0 0 0 "" with
    | .fatal m => .fatal m
    | .ub => .ub
    | .ok (pid, status_ppid, pgrp, name) =>
      if pid = process then
        if status_ppid = ppid then .ok (pgrp, name, not_there)
        else .fatal "CHECK_EQ() failed"
      else .fatal "CHECK_EQ() failed"

/-- Everything the kernel would answer for one identifier: the outcome of
each of the seven probes `main` runs for it. -/
structure ProcEnv where
  cpuMask : SysRes CpuSet
  schedParam : SysRes Int
  scheduler : SysRes Int
  exe : SysRes String
  niceErrno : Option Errno
  niceValue : Int
  statFile : StatFile
  statusFile : StatusFile
deriving DecidableEq

/-- One emitted CSV row, field for field as `printf` receives them. -/
structure Row where
  exe : String
  name : String
  cpumask : String
  policy : String
  nice : Int
  priority : Int
  tid : Int
  pid : Int
  ppid : Int
  sid : Int
deriving DecidableEq, Repr

/-- One iteration of the scan loop in `main` for identifier `i`: the seven
readers run in sequence threading the shared `not_there` flag (initially
false); afterwards, if the flag is set, no row is produced (`continue`);
otherwise the row is assembled, with the CPU-mask label computed by
`CPU_EQUAL(&cpu_mask, &all_cpus)`. -/
def processOne (i : Int) (env : ProcEnv) (all_cpus : CpuSet) : Outcome (Option Row) :=
  Outcome.bind (find_cpu_mask env.cpuMask false) fun cm =>
  Outcome.bind (find_sched_param env.schedParam cm.2) fun pr =>
  Outcome.bind (find_scheduler env.scheduler pr.2) fun sc =>
  Outcome.bind (find_exe env.exe sc.2) fun ex =>
  Outcome.bind (find_nice_value env.niceErrno env.niceValue ex.2) fun nv =>
  Outcome.bind (read_stat i env.statFile nv.2) fun st =>
  Outcome.bind (read_status i st.1 env.statusFile st.2.2) fun su =>
  if su.2.2 then .ok none
  else .ok (some
    { exe := ex.1
      name := su.2.1
      cpumask := if cm.1 = all_cpus then "all" else "???"
      policy := policy_string sc.1
      nice := nv.1
      priority := pr.1
      tid := i
      pid := su.1
      ppid := st.1
      sid := st.2.1 })

/-- The identifiers the scan loop visits: `for (int i = 0; i < pid_max; ++i)`. -/
def scanIds (pid_max : Int) : List Int :=
  (List.range pid_max.toNat).map Int.ofNat

/-- The scan loop over a list of identifiers, collecting the emitted rows
in order; a fatal outcome anywhere aborts the whole scan. -/
def runScan (procs : Int → ProcEnv) (all_cpus : CpuSet) : List Int → Outcome (List Row)
  | [] => .ok []
  | i :: is =>
    Outcome.bind (processOne i (procs i) all_cpus) fun r =>
    Outcome.bind (runScan procs all_cpus is) fun rs =>
    .ok (match r with
         | none => rs
         | some row => row :: rs)

/-- The whole system as the program finds it: the `pid_max` file, the
processor count, and the per-identifier probe outcomes. -/
structure World where
  pidMaxSrc : Option Int
  nproc : Int
  procs : Int → ProcEnv

/-- The header line `main` prints first, verbatim. -/
def headerLine : String := "exe,name,cpumask,policy,nice,priority,tid,pid,ppid,sid,cpu"

/-- The ten values a data row is printed from, in `printf` argument order:
`exe, name, cpu_mask_string, policy_string(scheduler), nice_value,
param.sched_priority, i, pgrp, ppid, sid`. -/
def rowFields (r : Row) : List String :=
  [r.exe, r.name, r.cpumask, r.policy, toString r.nice, toString r.priority,
   toString r.tid, toString r.pid, toString r.ppid, toString r.sid]

/-- The text of one data row: the ten fields joined by commas, exactly as
`printf("%s,%s,%s,%s,%d,%d,%d,%d,%d,%d\n", ...)` formats them (the
terminating newline is left off: output is modelled as a list of lines). -/
def rowLine (r : Row) : String :=
  String.intercalate "," (rowFields r)

/-- `main` on a successful run: header, then one line per live identifier
in scan order.  (On a fatal path the process exits mid-scan with partial
output; only completed runs yield an `ok` line list here.) -/
def mainRun (w : World) : Outcome (List String) :=
  Outcome.bind (find_pid_max w.pidMaxSrc) fun pid_max =>
  Outcome.bind (find_all_cpus w.nproc) fun all_cpus =>
  Outcome.bind (runScan w.procs all_cpus (scanIds pid_max)) fun rows =>
  .ok (headerLine :: rows.map rowLine)

/-! ### Helper lemmas -/

theorem Outcome.bind_eq_ok {α β : Type} {x : Outcome α} {f : α → Outcome β} {b : β} :
    Outcome.bind x f = .ok b ↔ ∃ a, x = .ok a ∧ f a = .ok b := by
  cases x <;> simp [Outcome.bind]

/-- A reader that receives the vanished flag already set hands it back set:
`find_sched_param` only ever writes `true` into `*not_there`. -/
theorem find_sched_param_flag {r : SysRes Int} {p : Int × Bool}
    (h : find_sched_param r true = .ok p) : p.2 = true := by
  cases r with
  | ok v => simp [find_sched_param] at h; simp [← h]
  | err e => cases e <;> simp [find_sched_param] at h <;> simp [← h]

/-- Same for `find_scheduler`. -/
theorem find_scheduler_flag {r : SysRes Int} {p : Int × Bool}
    (h : find_scheduler r true = .ok p) : p.2 = true := by
  cases r with
  | ok v => simp [find_scheduler] at h; simp [← h]
  | err e => cases e <;> simp [find_scheduler] at h <;> simp [← h]

/-- Same for `find_exe`. -/
theorem find_exe_flag {r : SysRes String} {p : String × Bool}
    (h : find_exe r true = .ok p) : p.2 = true := by
  cases r with
  | ok v => simp [find_exe] at h; simp [← h]
  | err e => cases e <;> simp [find_exe] at h <;> simp [← h]

/-- Same for `find_nice_value`. -/
theorem find_nice_value_flag {e : Option Errno} {v : Int} {p : Int × Bool}
    (h : find_nice_value e v true = .ok p) : p.2 = true := by
  cases e with
  | none => simp [find_nice_value] at h; simp [← h]
  | some er => cases er <;> simp [find_nice_value] at h <;> simp [← h]

/-- Same for `read_stat`: the flag is only ever set, never cleared. -/
theorem read_stat_flag {i : Int} {f : StatFile} {st : Int × Int × Bool}
    (h : read_stat i f true = .ok st) : st.2.2 = true := by
  cases f with
  | line s =>
    simp only [read_stat] at h
    cases hp : statParse s with
    | fatal m => rw [hp] at h; cases h
    | ub => rw [hp] at h; cases h
    | ok q =>
      obtain ⟨pid, ppid, sid, field⟩ := q
      rw [hp] at h
      by_cases h4 : field < 4 <;> simp [h4] at h
      by_cases hpid : pid = i <;> simp [hpid] at h
      simp [← h]
  | _ => first
      | (simp [read_stat] at h; simp [← h])
      | cases h
  
/-- Same for `read_status`. -/
theorem read_status_flag {i ppid : Int} {f : StatusFile} {su : Int × String × Bool}
    (h : read_status i ppid f true = .ok su) : su.2.2 = true := by
  cases f with
  | lines ls =>
    simp only [read_status] at h
    cases hp : statusFold ls 0 0 0 "" with
    | fatal m => rw [hp] at h; cases h
    | ub => rw [hp] at h; cases h
    | ok q =>
      obtain ⟨pid, status_ppid, pgrp, name⟩ := q
      rw [hp] at h
      by_cases h1 : pid = i <;> simp [h1] at h
      by_cases h2 : status_ppid = ppid <;> simp [h2] at h
      simp [← h]
  | _ => first
      | (simp [read_status] at h; simp [← h])
      | cases h

/-- Unfolding of a completed, row-producing loop iteration into the seven
reader results it went through and the row they assemble. -/
theorem processOne_ok_some {i : Int} {env : ProcEnv} {a : CpuSet} {r : Row} :
    processOne i env a = .ok (some r) ↔
    ∃ cm pr sc ex nv st su,
      find_cpu_mask env.cpuMask false = .ok cm ∧
      find_sched_param env.schedParam cm.2 = .ok pr ∧
      find_scheduler env.scheduler pr.2 = .ok sc ∧
      find_exe env.exe sc.2 = .ok ex ∧
      find_nice_value env.niceErrno env.niceValue ex.2 = .ok nv ∧
      read_stat i env.statFile nv.2 = .ok st ∧
      read_status i st.1 env.statusFile st.2.2 = .ok su ∧
      su.2.2 = false ∧
      r = { exe := ex.1
            name := su.2.1
            cpumask := if cm.1 = a then "all" else "???"
            policy := policy_string sc.1
            nice := nv.1
            priority := pr.1
            tid := i
            pid := su.1
            ppid := st.1
            sid := st.2.1 } := by
  constructor
  · intro h
    simp only [processOne, Outcome.bind_eq_ok] at h
    obtain ⟨cm, h1, pr, h2, sc, h3, ex, h4, nv, h5, st, h6, su, h7, h8⟩ := h
    refine ⟨cm, pr, sc, ex, nv, st, su, h1, h2, h3, h4, h5, h6, h7, ?_⟩
    by_cases hb : su.2.2 <;> simp [hb] at h8
    exact ⟨by simpa using hb, h8.symm⟩
  · rintro ⟨cm, pr, sc, ex, nv, st, su, h1, h2, h3, h4, h5, h6, h7, h8, h9⟩
    simp only [processOne, Outcome.bind_eq_ok]
    exact ⟨cm, h1, pr, h2, sc, h3, ex, h4, nv, h5, st, h6, su, h7, by simp [h8, h9]⟩

/-- A `read_stat` call that completes with the vanished flag clear must
have opened a real record line, parsed at least four fields from it, and
found the self-reported pid equal to the scanned identifier. -/
theorem read_stat_ok_false {i : Int} {f : StatFile} {nt : Bool} {st : Int × Int × Bool}
    (h : read_stat i f nt = .ok st) (hf : st.2.2 = false) :
    ∃ s field, f = .line s ∧
      statParse s = .ok (i, st.1, st.2.1, field) ∧ ¬ field < 4 ∧ nt = false := by
  cases f with
  | line s =>
    simp only [read_stat] at h
    cases hp : statParse s with
    | fatal m => rw [hp] at h; cases h
    | ub => rw [hp] at h; cases h
    | ok q =>
      obtain ⟨pid, ppid, sid, field⟩ := q
      rw [hp] at h
      by_cases h4 : field < 4 <;> simp [h4] at h
      by_cases hpid : pid = i <;> simp [hpid] at h
      refine ⟨s, field, rfl, ?_, h4, ?_⟩
      · rw [hp, ← h, hpid]
      · rw [← h] at hf; exact hf
  | missing => simp [read_stat] at h; rw [← h] at hf; cases hf
  | openErr => cases h
  | readErrESRCH => simp [read_stat] at h; rw [← h] at hf; cases hf
  | readErrOther => cases h
  | eofEmpty => cases h

/-- A `read_status` call that completes with the vanished flag clear must
have read real record lines whose `Pid:` equals the scanned identifier and
whose `PPid:` equals the parent id handed over from `read_stat`. -/
theorem read_status_ok_false {i ppid : Int} {f : StatusFile} {nt : Bool}
    {su : Int × String × Bool}
    (h : read_status i ppid f nt = .ok su) (hf : su.2.2 = false) :
    ∃ ls, f = .lines ls ∧
      statusFold ls 0 0 0 "" = .ok (i, ppid, su.1, su.2.1) ∧ nt = false := by
  cases f with
  | lines ls =>
    simp only [read_status] at h
    cases hp : statusFold ls 0 0 0 "" with
    | fatal m => rw [hp] at h; cases h
    | ub => rw [hp] at h; cases h
    | ok q =>
      obtain ⟨pid, status_ppid, pgrp, name⟩ := q
      rw [hp] at h
      by_cases h1 : pid = i <;> simp [h1] at h
      by_cases h2 : status_ppid = ppid <;> simp [h2] at h
      refine ⟨ls, rfl, ?_, ?_⟩
      · rw [hp, ← h, h1, h2]
      · rw [← h] at hf; exact hf
  | missing => simp [read_status] at h; rw [← h] at hf; cases hf
  | openErr => cases h
  | readErr => cases h

/-- If the text holds a non-whitespace character, the left-strip loop stops
there and returns the suffix from the first such character on. -/
theorem lstrip_eq_dropWhile :
    ∀ l : List Char, (∃ c ∈ l, isWs c = false) → lstrip l = some (l.dropWhile isWs) := by
  intro l
  induction l with
  | nil => rintro ⟨c, hc, _⟩; cases hc
  | cons c cs ih =>
    rintro ⟨d, hd, hdw⟩
    by_cases hw : isWs c
    · have : d ∈ cs := by
        rcases List.mem_cons.mp hd with h | h
        · rw [h] at hdw; rw [hdw] at hw; cases hw
        · exact h
      simp [lstrip, hw, List.dropWhile_cons, ih ⟨d, this, hdw⟩]
    · simp [lstrip, hw, List.dropWhile_cons]

/-- Dropping leading whitespace keeps some non-whitespace character. -/
theorem dropWhile_keeps_nonWs :
    ∀ l : List Char, (∃ c ∈ l, isWs c = false) →
      ∃ c ∈ l.dropWhile isWs, isWs c = false := by
  intro l
  induction l with
  | nil => rintro ⟨c, hc, _⟩; cases hc
  | cons c cs ih =>
    rintro ⟨d, hd, hdw⟩
    by_cases hw : isWs c
    · have : d ∈ cs := by
        rcases List.mem_cons.mp hd with h | h
        · rw [h] at hdw; rw [hdw] at hw; cases hw
        · exact h
      simpa [List.dropWhile_cons, hw] using ih ⟨d, this, hdw⟩
    · exact ⟨d, by simpa [List.dropWhile_cons, hw] using hd, hdw⟩

/-- On all-whitespace text the left-strip loop runs off the end and reads
out of bounds. -/
theorem lstrip_all_ws :
    ∀ l : List Char, (∀ c ∈ l, isWs c = true) → lstrip l = none := by
  intro l
  induction l with
  | nil => intro _; rfl
  | cons c cs ih =>
    intro h
    simp [lstrip, h c (List.mem_cons_self c cs), ih fun d hd => h d (List.mem_cons_of_mem c hd)]

/-- C10: the whitespace-stripping helper is well-defined exactly when its
input holds at least one character other than space, tab or newline: under
that precondition it returns the input with maximal whitespace runs removed
from both ends (so its `front()`/`back()` accesses stay in bounds), while
an empty or all-whitespace input drives a loop off the end of the text
(the `none` result, an out-of-bounds access). -/
theorem claim_C10_strip (s : String) :
    ((∃ c ∈ s.data, isWs c = false) →
      strip s = some ⟨((s.data.dropWhile isWs).reverse.dropWhile isWs).reverse⟩) ∧
    ((∀ c ∈ s.data, isWs c = true) → strip s = none) := by
  constructor
  · intro hex
    have h1 := lstrip_eq_dropWhile s.data hex
    have hex2 : ∃ c ∈ (s.data.dropWhile isWs).reverse, isWs c = false := by
      obtain ⟨c, hc, hcw⟩ := dropWhile_keeps_nonWs s.data hex
      exact ⟨c, List.mem_reverse.mpr hc, hcw⟩
    have h2 := lstrip_eq_dropWhile _ hex2
    simp only [strip, h1, h2]
  · intro hall
    simp only [strip, lstrip_all_ws s.data hall]

/-- Witness for C10 at a concrete input: `" a\t"` satisfies the
precondition and strips to `"a"`. -/
theorem claim_C10_strip_witness : strip " a\t" = some "a" := by
  have h := (claim_C10_strip " a\t").1 (by decide)
  exact h.trans (by decide)

/-- C6: the niceness reader trusts the side-channel error indicator taken
right after the query (cleared right before it): ESRCH there marks the
identifier vanished and yields 0, any other error is fatal, and a clear
indicator accepts the returned value as the niceness — whatever it is,
negative values included. -/
theorem claim_C6_nice_indicator (e : Option Errno) (v : Int) (nt : Bool) :
    (e = some .ESRCH → find_nice_value e v nt = .ok (0, true)) ∧
    (∀ er, e = some er → er ≠ .ESRCH →
      find_nice_value e v nt = .fatal "getpriority(PRIO_PROCESS)") ∧
    (e = none → find_nice_value e v nt = .ok (v, nt)) := by
  refine ⟨fun h => by rw [h]; rfl, fun er h hne => ?_, fun h => by rw [h]; rfl⟩
  rw [h]
  cases er with
  | ESRCH => exact absurd rfl hne
  | ENOENT => rfl
  | EACCES => rfl
  | EIO => rfl

/-- Witness for C6: ESRCH marks vanished; a clear indicator with the
negative return value -7 is accepted as the niceness. -/
theorem claim_C6_nice_indicator_witness :
    find_nice_value (some .ESRCH) 5 false = .ok (0, true) ∧
    find_nice_value none (-7) false = .ok (-7, false) :=
  ⟨(claim_C6_nice_indicator (some .ESRCH) 5 false).1 rfl,
   (claim_C6_nice_indicator none (-7) false).2.2 rfl⟩

/-- C7: the executable reader has exactly three failure-free outcomes:
a missing link target (ENOENT) yields the fixed sentinel string with the
vanished flag untouched, a missing identifier (ESRCH) sets the flag and
yields the empty string, and any other failure is fatal; moreover, with the
link target missing and every other probe succeeding and consistent, the
iteration still emits a row whose exe field is the sentinel. -/
theorem claim_C7_exe_outcomes :
    (∀ nt, find_exe (.err .ENOENT) nt = .ok ("ENOENT", nt)) ∧
    (∀ nt, find_exe (.err .ESRCH) nt = .ok ("", true)) ∧
    (∀ e nt, e ≠ .ENOENT → e ≠ .ESRCH → find_exe (.err e) nt = .fatal "readlink") ∧
    (∀ (i : Int) (env : ProcEnv) (a m : CpuSet) (p sc : Int) (s : String)
        (pp sd : Int) (field : Nat) (ls : List String) (pg : Int) (nm : String),
      env.cpuMask = .ok m → env.schedParam = .ok p → env.scheduler = .ok sc →
      env.exe = .err .ENOENT → env.niceErrno = none →
      env.statFile = .line s → statParse s = .ok (i, pp, sd, field) → ¬ field < 4 →
      env.statusFile = .lines ls → statusFold ls 0 0 0 "" = .ok (i, pp, pg, nm) →
      processOne i env a = .ok (some
        { exe := "ENOENT"
          name := nm
          cpumask := if m = a then "all" else "???"
          policy := policy_string sc
          nice := env.niceValue
          priority := p
          tid := i
          pid := pg
          ppid := pp
          sid := sd })) := by
  refine ⟨fun nt => rfl, fun nt => rfl, fun e nt h1 h2 => ?_, ?_⟩
  · cases e with
    | ESRCH => exact absurd rfl h2
    | ENOENT => exact absurd rfl h1
    | EACCES => rfl
    | EIO => rfl
  · intro i env a m p sc s pp sd field ls pg nm h1 h2 h3 h4 h5 h6 h7 h8 h9 h10
    simp [processOne, h1, h2, h3, h4, h5, h6, h9, find_cpu_mask, find_sched_param,
          find_scheduler, find_exe, find_nice_value, read_stat, read_status, h7, h10, h8]

/-- Concrete environment for the C7 witness: a kernel thread whose exe link
is missing (ENOENT) while all six other probes succeed consistently. -/
def envC7 : ProcEnv :=
  { cpuMask := .ok (Finset.range 1)
    schedParam := .ok 0
    scheduler := .ok 0
    exe := .err .ENOENT
    niceErrno := none
    niceValue := 0
    statFile := .line "2 (kthreadd) S 1 1 \n"
    statusFile := .lines ["Name:\tkthreadd\n", "Pid:\t2\n", "PPid:\t1\n", "Tgid:\t2\n"] }

/-- Witness for C7: identifier 2 with the link target missing still yields
a row, with exe set to the sentinel. -/
theorem claim_C7_exe_outcomes_witness :
    processOne 2 envC7 (Finset.range 1) = .ok (some
      { exe := "ENOENT", name := "kthreadd", cpumask := "all", policy := "OTHER",
        nice := 0, priority := 0, tid := 2, pid := 2, ppid := 1, sid := 1 }) := by
  have h := claim_C7_exe_outcomes.2.2.2 2 envC7 (Finset.range 1) (Finset.range 1)
    0 0 "2 (kthreadd) S 1 1 \n" 1 1 5 ["Name:\tkthreadd\n", "Pid:\t2\n", "PPid:\t1\n", "Tgid:\t2\n"]
    2 "kthreadd" rfl rfl rfl rfl rfl rfl (by decide) (by decide) rfl (by decide)
  exact h.trans (by decide)

/-- C8: for an emitted row, the cpumask field is `"all"` exactly when the
identifier's affinity mask equals the full configured CPU set computed at
startup by `find_all_cpus` — the set `{0 .. nproc-1}`; any other mask,
proper subsets included, yields the unknown-mask label `"???"`. -/
theorem claim_C8_cpumask_label {n i : Int} {env : ProcEnv} {a m : CpuSet} {r : Row}
    (hall : find_all_cpus n = .ok a)
    (hm : env.cpuMask = .ok m)
    (h : processOne i env a = .ok (some r)) :
    a = Finset.range n.toNat ∧ (r.cpumask = "all" ↔ m = a) ∧
    (m ≠ a → r.cpumask = "???") := by
  have ha : a = Finset.range n.toNat := by
    by_cases hn : n = -1 <;> simp [find_all_cpus, hn] at hall
    exact hall.symm
  obtain ⟨cm, pr, sc, ex, nv, st, su, h1, _, _, _, _, _, _, _, hr⟩ :=
    processOne_ok_some.mp h
  rw [hm] at h1
  simp only [find_cpu_mask] at h1
  have hcm : cm = (m, false) := by
    cases h1; rfl
  subst hr
  rw [hcm]
  by_cases hma : m = a
  · simpa [hma] using ha
  · simpa [hma] using ha

/-- Concrete environment for the C8 witness: affinity mask `{0}`, a proper
subset of the configured set `{0, 1}`. -/
def envC8 : ProcEnv :=
  { cpuMask := .ok (Finset.range 1)
    schedParam := .ok 0
    scheduler := .ok 0
    exe := .ok "/bin/sh"
    niceErrno := none
    niceValue := 0
    statFile := .line "3 (sh) S 1 3 \n"
    statusFile := .lines ["Name:\tsh\n", "Pid:\t3\n", "PPid:\t1\n", "Tgid:\t3\n"] }

/-- The row the C8 witness environment emits. -/
def rowC8 : Row :=
  { exe := "/bin/sh", name := "sh", cpumask := "???", policy := "OTHER",
    nice := 0, priority := 0, tid := 3, pid := 3, ppid := 1, sid := 3 }

/-- Witness for C8: a proper-subset affinity mask gets the unknown label. -/
theorem claim_C8_cpumask_label_witness :
    (Finset.range 2 : CpuSet) = Finset.range (2 : Int).toNat ∧
    (rowC8.cpumask = "all" ↔ (Finset.range 1 : CpuSet) = Finset.range 2) ∧
    ((Finset.range 1 : CpuSet) ≠ Finset.range 2 → rowC8.cpumask = "???") :=
  @claim_C8_cpumask_label 2 3 envC8 (Finset.range 2) (Finset.range 1) rowC8
    (by decide) rfl (by decide)

/-- C9: the program prints the fixed header line once, first, before any
data row; the header enumerates 11 comma-separated labels (ending in the
`cpu` column), while every data row is printed from exactly 10 values —
the row writer produces no value for the `cpu` column. -/
theorem claim_C9_header_vs_rows :
    headerLine = String.intercalate ","
      ["exe", "name", "cpumask", "policy", "nice", "priority", "tid", "pid",
       "ppid", "sid", "cpu"] ∧
    (["exe", "name", "cpumask", "policy", "nice", "priority", "tid", "pid",
      "ppid", "sid", "cpu"] : List String).length = 11 ∧
    (∀ r : Row, (rowFields r).length = 10 ∧
      rowLine r = String.intercalate "," (rowFields r)) ∧
    (∀ (w : World) (pm : Int) (a : CpuSet) (rows : List Row),
      find_pid_max w.pidMaxSrc = .ok pm →
      find_all_cpus w.nproc = .ok a →
      runScan w.procs a (scanIds pm) = .ok rows →
      mainRun w = .ok (headerLine :: rows.map rowLine)) := by
  refine ⟨by decide, rfl, fun r => ⟨rfl, rfl⟩, fun w pm a rows h1 h2 h3 => ?_⟩
  simp [mainRun, h1, h2, h3]

/-- Concrete environment for the C9 witness: one live identifier. -/
def envC9 : ProcEnv :=
  { cpuMask := .ok (Finset.range 1)
    schedParam := .ok 0
    scheduler := .ok 0
    exe := .ok "/sbin/init"
    niceErrno := none
    niceValue := 0
    statFile := .line "0 (init) S 0 0 \n"
    statusFile := .lines ["Name:\tinit\n", "Pid:\t0\n", "PPid:\t0\n", "Tgid:\t0\n"] }

/-- One-identifier world for the C9 witness. -/
def wC9 : World := { pidMaxSrc := some 1, nproc := 1, procs := fun _ => envC9 }

/-- The row the C9 witness world emits. -/
def rowC9 : Row :=
  { exe := "/sbin/init", name := "init", cpumask := "all", policy := "OTHER",
    nice := 0, priority := 0, tid := 0, pid := 0, ppid := 0, sid := 0 }

/-- Witness for C9: on a concrete one-identifier world the output is the
header followed by the one data row, and that row has 10 fields. -/
theorem claim_C9_header_vs_rows_witness :
    mainRun wC9 = .ok (headerLine :: [rowC9].map rowLine) ∧
    (rowFields rowC9).length = 10 :=
  ⟨claim_C9_header_vs_rows.2.2.2 wC9 1 (Finset.range 1) [rowC9] rfl (by decide) (by decide),
   (claim_C9_header_vs_rows.2.2.1 rowC9).1⟩

/-- Probe number `j` (in the order `main` runs them: affinity, scheduling
parameter, policy, exe, niceness, stat record, status record) succeeded
outright for identifier `i`. -/
def probeOk (i : Int) (env : ProcEnv) : Nat → Prop
  | 0 => ∃ m, env.cpuMask = .ok m
  | 1 => ∃ p, env.schedParam = .ok p
  | 2 => ∃ p, env.scheduler = .ok p
  | 3 => ∃ s, env.exe = .ok s
  | 4 => env.niceErrno = none
  | 5 => ∃ pp sd, read_stat i env.statFile false = .ok (pp, sd, false)
  | _ => True

/-- Probe number `j` observes the no-such-process condition: ESRCH from the
syscalls (an ESRCH-class errno on the niceness side channel), a missing
record file for the two text readers. -/
def probeAbsent (env : ProcEnv) : Nat → Prop
  | 0 => env.cpuMask = .err .ESRCH
  | 1 => env.schedParam = .err .ESRCH
  | 2 => env.scheduler = .err .ESRCH
  | 3 => env.exe = .err .ESRCH
  | 4 => env.niceErrno = some .ESRCH
  | 5 => env.statFile = .missing
  | _ => env.statusFile = .missing

/-- C1: an identifier that vanishes partway through the probe sequence —
the probes before the vanish point succeed, every probe from the vanish
point on observes the no-such-process condition — produces no CSV row and
no fatal termination: the iteration completes normally with the row
suppressed, and the scan moves on to the next identifier. -/
theorem claim_C1_vanished_skips_row (i : Int) (env : ProcEnv) (a : CpuSet) (k : Nat)
    (hk : k < 7)
    (hok : ∀ j, j < k → probeOk i env j)
    (habs : ∀ j, k ≤ j → j < 7 → probeAbsent env j) :
    processOne i env a = .ok none := by
  interval_cases k
  · have a0 := habs 0 (by norm_num) (by norm_num)
    have a1 := habs 1 (by norm_num) (by norm_num)
    have a2 := habs 2 (by norm_num) (by norm_num)
    have a3 := habs 3 (by norm_num) (by norm_num)
    have a4 := habs 4 (by norm_num) (by norm_num)
    have a5 := habs 5 (by norm_num) (by norm_num)
    have a6 := habs 6 (by norm_num) (by norm_num)
    simp only [probeAbsent] at a0 a1 a2 a3 a4 a5 a6
    simp [processOne, a0, a1, a2, a3, a4, a5, a6, find_cpu_mask, find_sched_param,
          find_scheduler, find_exe, find_nice_value, read_stat, read_status]
  · have h0 := hok 0 (by norm_num)
    have a1 := habs 1 (by norm_num) (by norm_num)
    have a2 := habs 2 (by norm_num) (by norm_num)
    have a3 := habs 3 (by norm_num) (by norm_num)
    have a4 := habs 4 (by norm_num) (by norm_num)
    have a5 := habs 5 (by norm_num) (by norm_num)
    have a6 := habs 6 (by norm_num) (by norm_num)
    simp only [probeOk] at h0
    simp only [probeAbsent] at a1 a2 a3 a4 a5 a6
    obtain ⟨m, hm⟩ := h0
    simp [processOne, hm, a1, a2, a3, a4, a5, a6, find_cpu_mask, find_sched_param,
          find_scheduler, find_exe, find_nice_value, read_stat, read_status]
  · have h0 := hok 0 (by norm_num)
    have h1 := hok 1 (by norm_num)
    have a2 := habs 2 (by norm_num) (by norm_num)
    have a3 := habs 3 (by norm_num) (by norm_num)
    have a4 := habs 4 (by norm_num) (by norm_num)
    have a5 := habs 5 (by norm_num) (by norm_num)
    have a6 := habs 6 (by norm_num) (by norm_num)
    simp only [probeOk] at h0 h1
    simp only [probeAbsent] at a2 a3 a4 a5 a6
    obtain ⟨m, hm⟩ := h0
    obtain ⟨p, hp⟩ := h1
    simp [processOne, hm, hp, a2, a3, a4, a5, a6, find_cpu_mask, find_sched_param,
          find_scheduler, find_exe, find_nice_value, read_stat, read_status]
  · have h0 := hok 0 (by norm_num)
    have h1 := hok 1 (by norm_num)
    have h2 := hok 2 (by norm_num)
    have a3 := habs 3 (by norm_num) (by norm_num)
    have a4 := habs 4 (by norm_num) (by norm_num)
    have a5 := habs 5 (by norm_num) (by norm_num)
    have a6 := habs 6 (by norm_num) (by norm_num)
    simp only [probeOk] at h0 h1 h2
    simp only [probeAbsent] at a3 a4 a5 a6
    obtain ⟨m, hm⟩ := h0
    obtain ⟨p, hp⟩ := h1
    obtain ⟨q, hq⟩ := h2
    simp [processOne, hm, hp, hq, a3, a4, a5, a6, find_cpu_mask, find_sched_param,
          find_scheduler, find_exe, find_nice_value, read_stat, read_status]
  · have h0 := hok 0 (by norm_num)
    have h1 := hok 1 (by norm_num)
    have h2 := hok 2 (by norm_num)
    have h3 := hok 3 (by norm_num)
    have a4 := habs 4 (by norm_num) (by norm_num)
    have a5 := habs 5 (by norm_num) (by norm_num)
    have a6 := habs 6 (by norm_num) (by norm_num)
    simp only [probeOk] at h0 h1 h2 h3
    simp only [probeAbsent] at a4 a5 a6
    obtain ⟨m, hm⟩ := h0
    obtain ⟨p, hp⟩ := h1
    obtain ⟨q, hq⟩ := h2
    obtain ⟨s, hs⟩ := h3
    simp [processOne, hm, hp, hq, hs, a4, a5, a6, find_cpu_mask, find_sched_param,
          find_scheduler, find_exe, find_nice_value, read_stat, read_status]
  · have h0 := hok 0 (by norm_num)
    have h1 := hok 1 (by norm_num)
    have h2 := hok 2 (by norm_num)
    have h3 := hok 3 (by norm_num)
    have h4 := hok 4 (by norm_num)
    have a5 := habs 5 (by norm_num) (by norm_num)
    have a6 := habs 6 (by norm_num) (by norm_num)
    simp only [probeOk] at h0 h1 h2 h3 h4
    simp only [probeAbsent] at a5 a6
    obtain ⟨m, hm⟩ := h0
    obtain ⟨p, hp⟩ := h1
    obtain ⟨q, hq⟩ := h2
    obtain ⟨s, hs⟩ := h3
    simp [processOne, hm, hp, hq, hs, h4, a5, a6, find_cpu_mask, find_sched_param,
          find_scheduler, find_exe, find_nice_value, read_stat, read_status]
  · have h0 := hok 0 (by norm_num)
    have h1 := hok 1 (by norm_num)
    have h2 := hok 2 (by norm_num)
    have h3 := hok 3 (by norm_num)
    have h4 := hok 4 (by norm_num)
    have h5 := hok 5 (by norm_num)
    have a6 := habs 6 (by norm_num) (by norm_num)
    simp only [probeOk] at h0 h1 h2 h3 h4 h5
    simp only [probeAbsent] at a6
    obtain ⟨m, hm⟩ := h0
    obtain ⟨p, hp⟩ := h1
    obtain ⟨q, hq⟩ := h2
    obtain ⟨s, hs⟩ := h3
    obtain ⟨pp, sd, h5'⟩ := h5
    simp [processOne, hm, hp, hq, hs, h4, h5', a6, find_cpu_mask, find_sched_param,
          find_scheduler, find_exe, find_nice_value, read_status]

/-- Concrete environment for the C1 witness, the claim's own scenario: the
affinity query succeeds, the identifier exits, the scheduling-parameter
query reports ESRCH, and every later probe sees the identifier gone. -/
def envC1 : ProcEnv :=
  { cpuMask := .ok (Finset.range 2)
    schedParam := .err .ESRCH
    scheduler := .err .ESRCH
    exe := .err .ESRCH
    niceErrno := some .ESRCH
    niceValue := 0
    statFile := .missing
    statusFile := .missing }

/-- Witness for C1: with the vanish point right after the successful
affinity query, identifier 5 yields no row and no fatal termination. -/
theorem claim_C1_vanished_skips_row_witness :
    processOne 5 envC1 (Finset.range 2) = .ok none :=
  claim_C1_vanished_skips_row 5 envC1 (Finset.range 2) 1 (by norm_num)
    (fun j hj => by interval_cases j; exact ⟨Finset.range 2, rfl⟩)
    (fun j h1 h2 => by interval_cases j <;> rfl)

/-- Environment for the C2 counterexample: the very first probe (CPU
affinity) observes ESRCH and sets the vanished flag, yet the two text
records are still present and mutually inconsistent (`PPid:` 7 in the
status record versus parent id 5 in the statistics record). -/
def envC2 : ProcEnv :=
  { cpuMask := .err .ESRCH
    schedParam := .ok 0
    scheduler := .ok 0
    exe := .ok "/bin/x"
    niceErrno := none
    niceValue := 0
    statFile := .line "1 (x) S 5 6 \n"
    statusFile := .lines ["Pid:\t1\n", "PPid:\t7\n", "Tgid:\t1\n"] }

/-- Counterexample to C2: with the vanished flag already set by the first
reader, the status-record reader's `CHECK_EQ(status_ppid, ppid)` still
runs and terminates the program fatally — the remaining readers' results
are not disregarded with respect to fatal termination. -/
theorem claim_C2_disregard_counterexample :
    envC2.cpuMask = .err .ESRCH ∧
    processOne 1 envC2 (Finset.range 2) = .fatal "CHECK_EQ() failed" :=
  ⟨rfl, by decide⟩

/-- C2 as amended: all seven readers are invoked in sequence with no early
exit on the vanished flag, and once any probe has observed the
no-such-process condition a completed (non-fatal) iteration never emits a
row — the later readers' values cannot reach the output; but the remaining
readers' own error checks still run and can terminate the program fatally
(see the counterexample), so only the output is shielded, not control
flow. -/
theorem claim_C2_flag_suppresses_output (i : Int) (env : ProcEnv) (a : CpuSet)
    (j : Nat) (r : Row) (hj : j < 7) (habs : probeAbsent env j) :
    processOne i env a ≠ .ok (some r) := by
  intro h
  obtain ⟨cm, pr, sc, ex, nv, st, su, h1, h2, h3, h4, h5, h6, h7, h8, _⟩ :=
    processOne_ok_some.mp h
  interval_cases j <;> simp only [probeAbsent] at habs
  · rw [habs] at h1
    simp [find_cpu_mask] at h1
    have hcm : cm.2 = true := by simp [← h1]
    rw [hcm] at h2
    have hpr := find_sched_param_flag h2
    rw [hpr] at h3
    have hsc := find_scheduler_flag h3
    rw [hsc] at h4
    have hex := find_exe_flag h4
    rw [hex] at h5
    have hnv := find_nice_value_flag h5
    rw [hnv] at h6
    have hst := read_stat_flag h6
    rw [hst] at h7
    have hsu := read_status_flag h7
    rw [hsu] at h8
    cases h8
  · rw [habs] at h2
    simp [find_sched_param] at h2
    have hpr : pr.2 = true := by simp [← h2]
    rw [hpr] at h3
    have hsc := find_scheduler_flag h3
    rw [hsc] at h4
    have hex := find_exe_flag h4
    rw [hex] at h5
    have hnv := find_nice_value_flag h5
    rw [hnv] at h6
    have hst := read_stat_flag h6
    rw [hst] at h7
    have hsu := read_status_flag h7
    rw [hsu] at h8
    cases h8
  · rw [habs] at h3
    simp [find_scheduler] at h3
    have hsc : sc.2 = true := by simp [← h3]
    rw [hsc] at h4
    have hex := find_exe_flag h4
    rw [hex] at h5
    have hnv := find_nice_value_flag h5
    rw [hnv] at h6
    have hst := read_stat_flag h6
    rw [hst] at h7
    have hsu := read_status_flag h7
    rw [hsu] at h8
    cases h8
  · rw [habs] at h4
    simp [find_exe] at h4
    have hex : ex.2 = true := by simp [← h4]
    rw [hex] at h5
    have hnv := find_nice_value_flag h5
    rw [hnv] at h6
    have hst := read_stat_flag h6
    rw [hst] at h7
    have hsu := read_status_flag h7
    rw [hsu] at h8
    cases h8
  · rw [habs] at h5
    simp [find_nice_value] at h5
    have hnv : nv.2 = true := by simp [← h5]
    rw [hnv] at h6
    have hst := read_stat_flag h6
    rw [hst] at h7
    have hsu := read_status_flag h7
    rw [hsu] at h8
    cases h8
  · rw [habs] at h6
    simp [read_stat] at h6
    have hst : st.2.2 = true := by simp [← h6]
    rw [hst] at h7
    have hsu := read_status_flag h7
    rw [hsu] at h8
    cases h8
  · rw [habs] at h7
    simp [read_status] at h7
    have hsu : su.2.2 = true := by simp [← h7]
    rw [hsu] at h8
    cases h8

/-- Environment for the C2 amended-claim witness: flag set by the first
probe, every other probe succeeding and consistent. -/
def envC2w : ProcEnv :=
  { cpuMask := .err .ESRCH
    schedParam := .ok 0
    scheduler := .ok 0
    exe := .ok "/bin/x"
    niceErrno := none
    niceValue := 0
    statFile := .line "1 (x) S 5 6 \n"
    statusFile := .lines ["Pid:\t1\n", "PPid:\t5\n", "Tgid:\t1\n"] }

/-- Witness for the amended C2: with the flag set by the affinity probe
and all later readers succeeding, no row whatsoever can be emitted. -/
theorem claim_C2_flag_suppresses_output_witness :
    processOne 1 envC2w (Finset.range 2) ≠ .ok (some
      { exe := "/bin/x", name := "", cpumask := "???", policy := "OTHER",
        nice := 0, priority := 0, tid := 1, pid := 1, ppid := 5, sid := 6 }) :=
  claim_C2_flag_suppresses_output 1 envC2w (Finset.range 2) 0
    { exe := "/bin/x", name := "", cpumask := "???", policy := "OTHER",
      nice := 0, priority := 0, tid := 1, pid := 1, ppid := 5, sid := 6 }
    (by norm_num) rfl

/-- Every row a completed iteration emits carries the scanned identifier
in its tid field. -/
theorem processOne_tid {i : Int} {env : ProcEnv} {a : CpuSet} {r : Row}
    (h : processOne i env a = .ok (some r)) : r.tid = i := by
  obtain ⟨_, _, _, _, _, _, _, _, _, _, _, _, _, _, _, hr⟩ := processOne_ok_some.mp h
  rw [hr]

/-- The identifiers the loop visits are exactly those with
`0 ≤ i < pid_max`. -/
theorem scanIds_mem (pm i : Int) : i ∈ scanIds pm ↔ 0 ≤ i ∧ i < pm := by
  simp only [scanIds, List.mem_map, List.mem_range, Int.ofNat_eq_natCast]
  constructor
  · rintro ⟨j, hj, rfl⟩
    omega
  · rintro ⟨h0, h1⟩
    exact ⟨i.toNat, by omega, by omega⟩

/-- Every row a completed scan collects comes from the iteration of some
visited identifier, whose value it carries as its tid. -/
theorem runScan_rows (procs : Int → ProcEnv) (a : CpuSet) :
    ∀ (ids : List Int) (rows : List Row), runScan procs a ids = .ok rows →
      ∀ r ∈ rows, ∃ i ∈ ids, processOne i (procs i) a = .ok (some r) ∧ r.tid = i := by
  intro ids
  induction ids with
  | nil =>
    intro rows h r hr
    simp only [runScan] at h
    cases h
    cases hr
  | cons i is ih =>
    intro rows h r hr
    simp only [runScan, Outcome.bind_eq_ok] at h
    obtain ⟨r0, h0, rs, hrs, hout⟩ := h
    cases r0 with
    | none =>
      simp at hout
      rw [← hout] at hr
      obtain ⟨i', hi', hp, ht⟩ := ih rs hrs r hr
      exact ⟨i', List.mem_cons_of_mem i hi', hp, ht⟩
    | some row =>
      simp at hout
      rw [← hout] at hr
      rcases List.mem_cons.mp hr with h | h
      · subst h
        exact ⟨i, List.mem_cons_self i is, h0, processOne_tid h0⟩
      · obtain ⟨i', hi', hp, ht⟩ := ih rs hrs r h
        exact ⟨i', List.mem_cons_of_mem i hi', hp, ht⟩

/-- C4 as amended: the scan driver invokes the snapshot assembler exactly
once for every identifier in the range 0 to max_identifier - 1 inclusive,
in ascending order (the visited list is strictly increasing, so each
identifier appears exactly once); every emitted row's tid equals the
identifier that produced it, and satisfies 0 ≤ tid < max_identifier. -/
theorem claim_C4_scan_range :
    (∀ pm : Int, List.Pairwise (· < ·) (scanIds pm)) ∧
    (∀ pm i : Int, i ∈ scanIds pm ↔ 0 ≤ i ∧ i < pm) ∧
    (∀ (procs : Int → ProcEnv) (a : CpuSet) (ids : List Int) (rows : List Row),
      runScan procs a ids = .ok rows →
      ∀ r ∈ rows, ∃ i ∈ ids, processOne i (procs i) a = .ok (some r) ∧ r.tid = i) ∧
    (∀ (procs : Int → ProcEnv) (a : CpuSet) (pm : Int) (rows : List Row),
      runScan procs a (scanIds pm) = .ok rows →
      ∀ r ∈ rows, 0 ≤ r.tid ∧ r.tid < pm) := by
  refine ⟨fun pm => ?_, scanIds_mem, runScan_rows, fun procs a pm rows h r hr => ?_⟩
  · exact List.Pairwise.map Int.ofNat (fun a b hab => Int.ofNat_lt.mpr hab)
      (List.pairwise_lt_range pm.toNat)
  · obtain ⟨i, hi, _, ht⟩ := runScan_rows procs a (scanIds pm) rows h r hr
    rw [ht]
    exact (scanIds_mem pm i).mp hi

/-- Environment used for the C4 counterexample and witness: identifier 0
is fully live (all seven probes succeed and agree). -/
def envC4 : ProcEnv :=
  { cpuMask := .ok (Finset.range 1)
    schedParam := .ok 0
    scheduler := .ok 0
    exe := .ok "/sbin/idle"
    niceErrno := none
    niceValue := 0
    statFile := .line "0 (swapper) S 0 0 \n"
    statusFile := .lines ["Name:\tswapper\n", "Pid:\t0\n", "PPid:\t0\n", "Tgid:\t0\n"] }

/-- The row the C4 environment emits for identifier 0. -/
def rowC4 : Row :=
  { exe := "/sbin/idle", name := "swapper", cpumask := "all", policy := "OTHER",
    nice := 0, priority := 0, tid := 0, pid := 0, ppid := 0, sid := 0 }

/-- Counterexample to C4 as stated: with max_identifier 1 the loop visits
identifier 0 and never identifier 1 — the visited range is 0 to
max_identifier - 1, not 1 to max_identifier — and a live identifier 0
yields an emitted row whose tid is 0, which is not strictly greater
than 0. -/
theorem claim_C4_scan_range_counterexample :
    scanIds 1 = [0] ∧ (1 : Int) ∉ scanIds 1 ∧
    processOne 0 envC4 (Finset.range 1) = .ok (some rowC4) ∧
    ¬ (0 : Int) < rowC4.tid := by decide

/-- Witness for the amended C4: in a one-identifier world the emitted
row's tid is within 0 ≤ tid < max_identifier. -/
theorem claim_C4_scan_range_witness :
    (0 : Int) ≤ rowC4.tid ∧ rowC4.tid < 1 :=
  claim_C4_scan_range.2.2.2 (fun _ => envC4) (Finset.range 1) 1 [rowC4]
    (by decide) rowC4 (by decide)

/-- C3: for every emitted row the identifier fields are mutually
consistent — the statistics record's self-reported pid (field 0) and the
status record's `Pid:` both equal the scanned identifier (the row's tid),
the row's pid column is the status record's `Tgid:`, and the parent id
from the statistics record (the row's ppid) equals the status record's
`PPid:`; and a mismatch in any of these cross-checks makes the respective
reader terminate the program fatally (`CHECK_EQ`), never marking the
identifier vanished. -/
theorem claim_C3_row_consistency :
    (∀ (i : Int) (env : ProcEnv) (a : CpuSet) (r : Row),
      processOne i env a = .ok (some r) →
      ∃ (s : String) (field : Nat) (ls : List String),
        env.statFile = .line s ∧ env.statusFile = .lines ls ∧
        statParse s = .ok (i, r.ppid, r.sid, field) ∧
        statusFold ls 0 0 0 "" = .ok (i, r.ppid, r.pid, r.name) ∧
        r.tid = i) ∧
    (∀ (i ppid : Int) (ls : List String) (spid sppid pgrp : Int) (nm : String)
        (nt : Bool),
      statusFold ls 0 0 0 "" = .ok (spid, sppid, pgrp, nm) →
      spid ≠ i ∨ sppid ≠ ppid →
      read_status i ppid (.lines ls) nt = .fatal "CHECK_EQ() failed") ∧
    (∀ (i : Int) (s : String) (pid ppid sid : Int) (field : Nat) (nt : Bool),
      statParse s = .ok (pid, ppid, sid, field) → ¬ field < 4 → pid ≠ i →
      read_stat i (.line s) nt = .fatal "CHECK_EQ() failed") := by
  refine ⟨fun i env a r h => ?_, fun i ppid ls spid sppid pgrp nm nt hf hne => ?_,
    fun i s pid ppid sid field nt hp h4 hne => ?_⟩
  · obtain ⟨cm, pr, sc, ex, nv, st, su, h1, h2, h3, h4, h5, h6, h7, h8, hr⟩ :=
      processOne_ok_some.mp h
    obtain ⟨ls, hls, hfold, hnt⟩ := read_status_ok_false h7 h8
    obtain ⟨s, field, hfs, hparse, hf4, _⟩ := read_stat_ok_false h6 hnt
    subst hr
    exact ⟨s, field, ls, hfs, hls, hparse, hfold, rfl⟩
  · simp only [read_status, hf]
    rcases hne with hne | hne
    · simp [hne]
    · by_cases h1 : spid = i <;> simp [h1, hne]
  · simp only [read_stat, hp]
    simp [h4, hne]

/-- Witness for C3: concrete mismatches — a status record whose `PPid:` 7
disagrees with the parent id 5 from the statistics record, and a
statistics record whose self-reported pid 8 disagrees with the scanned
identifier 9 — both terminate fatally. -/
theorem claim_C3_row_consistency_witness :
    read_status 9 5 (.lines ["Pid:\t9\n", "PPid:\t7\n"]) false =
      .fatal "CHECK_EQ() failed" ∧
    read_stat 9 (.line "8 (x) S 5 6 \n") false = .fatal "CHECK_EQ() failed" :=
  ⟨claim_C3_row_consistency.2.1 9 5 ["Pid:\t9\n", "PPid:\t7\n"] 9 7 0 "" false
    (by decide) (Or.inr (by decide)),
   claim_C3_row_consistency.2.2 9 "8 (x) S 5 6 \n" 8 5 6 5 false
    (by decide) (by decide) (by decide)⟩

/-- Modelled from the spec's words, as the reference for the splitting
claim (the source-derived parser is `statGo`): tokenize the record by
splitting on whitespace only while parenthesis-nesting depth is zero, so a
parenthesized command-name field — spaces and nested parentheses included —
stays one opaque token.  Produces the space-terminated tokens in order. -/
def specSplitGo : List Char → Nat → List Char → List String
  | [], _, _ => []
  | c :: cs, parens, acc =>
    let parens1 := if c = '(' then parens + 1 else parens
    if parens1 > 0 then
      specSplitGo cs (if c = ')' then parens1 - 1 else parens1) (acc ++ [c])
    else if c = ' ' then
      (⟨acc⟩ : String) :: specSplitGo cs 0 []
    else
      specSplitGo cs 0 (acc ++ [c])

/-- The depth-zero whitespace tokenization of a whole record line. -/
def specSplitDepth0 (s : String) : List String := specSplitGo s.data 0 []

/-- Folding the field extraction of `read_stat` over an explicit token
list: token number 0 is the self-identifier, 3 the parent id, 4 the
session id, each via `std::stoi` (fatal when unparsable); all other tokens
only advance the field counter. -/
def applyTokens : List String → Nat → Int → Int → Int → Outcome (Int × Int × Int × Nat)
  | [], field, pid, ppid, sid => .ok (pid, ppid, sid, field)
  | t :: ts, field, pid, ppid, sid =>
    match field with
    | 0 =>
      match stoi t with
      | none => .fatal "stoi"
      | some v => applyTokens ts 1 v ppid sid
    | 3 =>
      match stoi t with
      | none => .fatal "stoi"
      | some v => applyTokens ts 4 pid v sid
    | 4 =>
      match stoi t with
      | none => .fatal "stoi"
      | some v => applyTokens ts 5 pid ppid v
    | f => applyTokens ts (f + 1) pid ppid sid

/-- The source's character-at-a-time splitting loop agrees with extracting
fields from the depth-zero tokenization: the two recursions advance in
lockstep. -/
theorem statGo_eq_applyTokens :
    ∀ (cs : List Char) (parens : Nat) (acc : List Char) (field : Nat)
      (pid ppid sid : Int),
      statGo cs parens acc field pid ppid sid =
        applyTokens (specSplitGo cs parens acc) field pid ppid sid := by
  intro cs
  induction cs with
  | nil => intro parens acc field pid ppid sid; rfl
  | cons c cs ih =>
    intro parens acc field pid ppid sid
    simp only [statGo, specSplitGo]
    by_cases h1 : (if c = '(' then parens + 1 else parens) > 0
    · simp only [h1, if_pos, if_true]
      exact ih _ _ _ _ _ _
    · simp only [h1, if_false]
      by_cases h2 : c = ' '
      · simp only [h2, if_pos, if_true]
        match field with
        | 0 =>
          simp only [applyTokens]
          cases stoi ⟨acc⟩ with
          | none => rfl
          | some v => exact ih _ _ _ _ _ _
        | 3 =>
          simp only [applyTokens]
          cases stoi ⟨acc⟩ with
          | none => rfl
          | some v => exact ih _ _ _ _ _ _
        | 4 =>
          simp only [applyTokens]
          cases stoi ⟨acc⟩ with
          | none => rfl
          | some v => exact ih _ _ _ _ _ _
        | 1 => simp only [applyTokens]; exact ih _ _ _ _ _ _
        | 2 => simp only [applyTokens]; exact ih _ _ _ _ _ _
        | (n + 5) => simp only [applyTokens]; exact ih _ _ _ _ _ _
      · simp only [h2, if_false]
        exact ih _ _ _ _ _ _

/-- The field counter a successful token fold ends with is the starting
counter plus the number of tokens. -/
theorem applyTokens_count :
    ∀ (ts : List String) (f : Nat) (pid ppid sid pid2 ppid2 sid2 : Int) (n : Nat),
      applyTokens ts f pid ppid sid = .ok (pid2, ppid2, sid2, n) → n = f + ts.length := by
  intro ts
  induction ts with
  | nil =>
    intro f pid ppid sid pid2 ppid2 sid2 n h
    simp [applyTokens] at h
    simp [h.2.2.2]
  | cons t ts ih =>
    intro f pid ppid sid pid2 ppid2 sid2 n h
    match f with
    | 0 =>
      simp only [applyTokens] at h
      cases hs : stoi t with
      | none => rw [hs] at h; cases h
      | some v =>
        rw [hs] at h
        have := ih _ _ _ _ _ _ _ _ h
        simp only [List.length_cons]
        omega
    | 3 =>
      simp only [applyTokens] at h
      cases hs : stoi t with
      | none => rw [hs] at h; cases h
      | some v =>
        rw [hs] at h
        have := ih _ _ _ _ _ _ _ _ h
        simp only [List.length_cons]
        omega
    | 4 =>
      simp only [applyTokens] at h
      cases hs : stoi t with
      | none => rw [hs] at h; cases h
      | some v =>
        rw [hs] at h
        have := ih _ _ _ _ _ _ _ _ h
        simp only [List.length_cons]
        omega
    | 1 =>
      simp only [applyTokens] at h
      have := ih _ _ _ _ _ _ _ _ h
      simp only [List.length_cons]
      omega
    | 2 =>
      simp only [applyTokens] at h
      have := ih _ _ _ _ _ _ _ _ h
      simp only [List.length_cons]
      omega
    | (m + 5) =>
      simp only [applyTokens] at h
      have := ih _ _ _ _ _ _ _ _ h
      simp only [List.length_cons]
      omega

/-- Counterexample to C5 as stated: the record line `"1 (x) S 0 \n"`
yields exactly 4 space-terminated fields — fewer than 5 — yet `read_stat`
does not terminate fatally: it accepts the record, leaving the session id
at its default 0. -/
theorem claim_C5_stat_record_counterexample :
    statParse "1 (x) S 0 \n" = .ok (1, 0, 0, 4) ∧
    read_stat 1 (.line "1 (x) S 0 \n") false = .ok (0, 0, false) := by
  decide

/-- C5 as amended: the statistics-record reader splits the record on
spaces at parenthesis-nesting depth zero, treating the parenthesized
command-name field as one opaque token (the source loop agrees with the
spec's tokenizer, extracting the self-identifier from field 0, the parent
id from field 3 and the session id from field 4, and its final field count
is the token count); a missing record file marks the identifier vanished;
and parsing fewer than 4 fields — not 5 — causes fatal termination, while
a record with at least 4 fields and a matching self-identifier is
accepted (with exactly 4 fields the session id keeps its default 0). -/
theorem claim_C5_stat_record :
    (∀ (i : Int) (nt : Bool), read_stat i .missing nt = .ok (0, 0, true)) ∧
    (∀ s : String, statParse s = applyTokens (specSplitDepth0 s) 0 0 0 0) ∧
    (∀ (s : String) (pid ppid sid : Int) (field : Nat),
      statParse s = .ok (pid, ppid, sid, field) → field = (specSplitDepth0 s).length) ∧
    (∀ (i : Int) (s : String) (nt : Bool) (pid ppid sid : Int) (field : Nat),
      statParse s = .ok (pid, ppid, sid, field) → field < 4 →
      read_stat i (.line s) nt = .fatal "couldn't get fields from /proc/<pid>/stat") ∧
    (∀ (i : Int) (s : String) (nt : Bool) (pid ppid sid : Int) (field : Nat),
      statParse s = .ok (pid, ppid, sid, field) → ¬ field < 4 → pid = i →
      read_stat i (.line s) nt = .ok (ppid, sid, nt)) := by
  refine ⟨fun i nt => rfl, fun s => statGo_eq_applyTokens _ _ _ _ _ _ _,
    fun s pid ppid sid field hp => ?_, fun i s nt pid ppid sid field hp h4 => ?_,
    fun i s nt pid ppid sid field hp h4 hpid => ?_⟩
  · have h2 := statGo_eq_applyTokens s.data 0 [] 0 0 0 0
    rw [statParse] at hp
    rw [hp] at h2
    have := applyTokens_count (specSplitGo s.data 0 []) 0 0 0 0 pid ppid sid field h2.symm
    simpa [specSplitDepth0] using this
  · simp [read_stat, hp, h4]
  · simp [read_stat, hp, h4, hpid]

/-- Witness for the amended C5: a missing record marks the identifier
vanished, and a five-field record with a parenthesized name containing a
space parses to parent id 1 and session id 2. -/
theorem claim_C5_stat_record_witness :
    read_stat 7 .missing false = .ok (0, 0, true) ∧
    read_stat 3 (.line "3 (a b) S 1 2 \n") false = .ok (1, 2, false) :=
  ⟨claim_C5_stat_record.1 7 false,
   claim_C5_stat_record.2.2.2.2 3 "3 (a b) S 1 2 \n" false 3 1 2 5
     (by decide) (by decide) rfl⟩
